import Mathlib

/-!
Shallow embedding of the ARQGAN repository (ufvceiec/ARQGAN): pix2pix-style
conditional GAN models for temple reconstruction.  The embedding covers

* the image preprocessing utilities (`utils/custom_preprocessing.py`),
* the keras computation graphs built by the discriminator constructors
  (`models/model0/model0.py`, `deprecated/models/pix2pix_updated.py`),
* the loss functions and training/validation steps of `Model0`,
  `HybridReconstuctor`, `RaisingLamdba` and the deprecated `Pix2Pix`,
* the dataset assembly of `HybridReconstuctor.get_dataset`.

Real-valued tensor contents are modelled as flat lists of reals; the keras
graph structure is modelled symbolically; the TensorFlow random primitives
(shuffling, random crop offsets, the coin flip of `random_jitter`) are made
explicit parameters, constrained exactly as TensorFlow constrains them.
-/

namespace ARQGAN

/-- Python's builtin `round`: round half to even (banker's rounding), as used
by `round(buffer_size * split)` and `round(IMG_WIDTH * RESIZE_FACTOR)`. -/
def pyRound (q : ℚ) : ℤ :=
  let f : ℤ := ⌊q⌋
  let r : ℚ := q - f
  if r < 1/2 then f
  else if 1/2 < r then f + 1
  else if f % 2 = 0 then f else f + 1

/-- Embedding of `tf.ones_like`: a tensor of ones with the shape of the
argument. -/
def onesLike (s : List ℝ) : List ℝ := s.map fun _ => 1

/-- Embedding of `tf.zeros_like`. -/
def zerosLike (s : List ℝ) : List ℝ := s.map fun _ => 0

/-- Embedding of `tf.keras.losses.BinaryCrossentropy(from_logits=True)`:
per element with target `y` and logit `x` the loss is
`log (1 + exp x) - y * x`, reduced by the mean over all elements.
(`log (1 + exp x) - y * x = -(y * log (sigmoid x) + (1-y) * log (1 - sigmoid x))`.) -/
noncomputable def bceFromLogits (target pred : List ℝ) : ℝ :=
  ((target.zip pred).map fun p => Real.log (1 + Real.exp p.2) - p.1 * p.2).sum
    / ((target.zip pred).length : ℝ)

/-- Embedding of `tf.reduce_mean(tf.abs(target - gen_output))`, the L1
reconstruction loss used by every generator loss in the repository. -/
noncomputable def l1Loss (target gen_output : List ℝ) : ℝ :=
  ((target.zip gen_output).map fun p => |p.1 - p.2|).sum
    / ((target.zip gen_output).length : ℝ)

end ARQGAN

namespace CustomPre

/-!
Embedding of `src/deprecated/utils/custom_preprocessing.py`.  An image is a
height/width pair together with a total pixel function; the TensorFlow image
primitives (`tf.image.resize` with nearest neighbour, `tf.image.random_crop`
on a stacked tensor, `tf.image.flip_left_right`) are modelled as index
transformations.  The random choices made by TensorFlow (the crop offsets and
the coin of the flip) appear as explicit parameters.
-/

/-- An image tensor: height, width, and the pixel at each (row, column). -/
structure Img (P : Type) where
  h : ℕ
  w : ℕ
  px : ℕ → ℕ → P

/-- The module-level configuration globals of `custom_preprocessing.py`
(`IMG_WIDTH`, `IMG_HEIGHT`, `TGT_WIDTH`, `TGT_HEIGHT`, `RESIZE_FACTOR`),
mutated by call sites and read by the preprocessing functions. -/
structure Globals where
  IMG_WIDTH : ℕ
  IMG_HEIGHT : ℕ
  TGT_WIDTH : ℕ
  TGT_HEIGHT : ℕ
  RESIZE_FACTOR : ℚ

/-- Modelled TensorFlow primitive `tf.image.resize(image, [height, width],
method=NEAREST_NEIGHBOR)`: each output pixel reads the source pixel found by
scaling its index by the old/new dimension ratio. -/
def resizeOne {P : Type} (width height : ℕ) (img : Img P) : Img P :=
  ⟨height, width, fun y x => img.px (y * img.h / height) (x * img.w / width)⟩

/-- The `resize` helper of `custom_preprocessing.py`: resizes every image of
the list to the same `[height, width]`. -/
def resize {P : Type} (width height : ℕ) (images : List (Img P)) : List (Img P) :=
  images.map (resizeOne width height)

/-- Crop of a single image at offset (oy, ox) with target size (th, tw). -/
def cropOne {P : Type} (oy ox th tw : ℕ) (img : Img P) : Img P :=
  ⟨th, tw, fun y x => img.px (oy + y) (ox + x)⟩

/-- The stacked 4D tensor built by `tf.stack(images)`: index i selects the
i-th image. -/
def stackImgs {P : Type} (images : List (Img P)) (dflt : Img P) : ℕ → Img P :=
  fun i => images.getD i dflt

/-- Crop of a stacked tensor: one offset for the stack dimension and one
spatial offset shared by every image of the stack. -/
def cropStack {P : Type} (s : ℕ → Img P) (o0 oy ox th tw : ℕ) : ℕ → Img P :=
  fun i => cropOne oy ox th tw (s (o0 + i))

/-- Embedding of `tf.unstack(crop, num=n)`. -/
def unstack {P : Type} (n : ℕ) (s : ℕ → Img P) : List (Img P) :=
  (List.range n).map s

/-- The `random_crop` helper: `tf.image.random_crop(tf.stack(images),
size=[len(images), TGT_HEIGHT, TGT_WIDTH, 3])` followed by `tf.unstack`.
Because the requested size in the stack dimension equals the stack length,
TensorFlow's random offset in that dimension is forced to 0; the spatial
offsets (oy, ox) are the random draw, shared by the whole stack. -/
def random_crop {P : Type} (g : Globals) (oy ox : ℕ) (dflt : Img P)
    (images : List (Img P)) : List (Img P) :=
  unstack images.length
    (cropStack (stackImgs images dflt) 0 oy ox g.TGT_HEIGHT g.TGT_WIDTH)

/-- Modelled TensorFlow primitive `tf.image.flip_left_right`. -/
def flipOne {P : Type} (img : Img P) : Img P :=
  ⟨img.h, img.w, fun y x => img.px y (img.w - 1 - x)⟩

/-- The `random_jitter` function of `custom_preprocessing.py`: resize every
image to `round(IMG_WIDTH * RESIZE_FACTOR) x round(IMG_HEIGHT * RESIZE_FACTOR)`,
random-crop the stacked images, and flip them all left-right when the single
`tf.random.uniform(()) > 0.5` draw (the parameter `coin`) comes up true. -/
def random_jitter {P : Type} (g : Globals) (coin : Bool) (oy ox : ℕ)
    (dflt : Img P) (images : List (Img P)) : List (Img P) :=
  let new_width := (ARQGAN.pyRound ((g.IMG_WIDTH : ℚ) * g.RESIZE_FACTOR)).toNat
  let new_height := (ARQGAN.pyRound ((g.IMG_HEIGHT : ℚ) * g.RESIZE_FACTOR)).toNat
  let images1 := resize new_width new_height images
  let images2 := random_crop g oy ox dflt images1
  if coin then images2.map flipOne else images2

/-- The per-image transformation that `random_jitter` realizes when all of
its random draws are fixed: resize, crop at the shared offset, then flip or
not according to the shared coin. -/
def jitterOne {P : Type} (g : Globals) (coin : Bool) (oy ox : ℕ)
    (img : Img P) : Img P :=
  let new_width := (ARQGAN.pyRound ((g.IMG_WIDTH : ℚ) * g.RESIZE_FACTOR)).toNat
  let new_height := (ARQGAN.pyRound ((g.IMG_HEIGHT : ℚ) * g.RESIZE_FACTOR)).toNat
  let r := resizeOne new_width new_height img
  let c := cropOne oy ox g.TGT_HEIGHT g.TGT_WIDTH r
  if coin then flipOne c else c

/-- The `normalize` function of `custom_preprocessing.py` on one image:
`(image / 127.5) - 1` pixelwise. -/
def normalizeImage (img : Img ℚ) : Img ℚ :=
  ⟨img.h, img.w, fun y x => img.px y x / 127.5 - 1⟩

/-- The `normalize` function itself: maps the pixelwise transformation over
the list of images. -/
def normalize (images : List (Img ℚ)) : List (Img ℚ) :=
  images.map normalizeImage

/-- The visualization inverse transform used by `HybridReconstuctor.predict`
(and `generate_images`): `image * 0.5 + 0.5` pixelwise. -/
def vizImage (img : Img ℚ) : Img ℚ :=
  ⟨img.h, img.w, fun y x => img.px y x * 0.5 + 0.5⟩

end CustomPre

namespace KGraph

/-!
Symbolic embedding of the keras computation graphs built by the discriminator
constructors.  The keras functional API builds a DAG of layer applications
over symbolic input placeholders; `KTensor` mirrors that DAG, and a
`KerasModel` records, as `tf.keras.Model(inputs=..., outputs=...)` does, the
declared inputs and the output node.  Input placeholders carry a numeric tag:
0 is the condition image (`input_image`), 1 the candidate image
(`target_image`).  Activation codes on convolutions: 0 = none (logits),
1 = sigmoid, 2 = tanh.
-/

/-- A symbolic keras tensor. -/
inductive KTensor where
  | input (tag : ℕ)
  | concat2 (a b : KTensor)
  | conv2d (filters size strides : ℕ) (useBias : Bool) (act : ℕ) (x : KTensor)
  | convTranspose2d (filters size strides : ℕ) (act : ℕ) (x : KTensor)
  | batchNorm (x : KTensor)
  | leakyRelu (x : KTensor)
  | zeroPad (x : KTensor)
  deriving DecidableEq

/-- The input placeholders an output node actually reads, in graph order. -/
def inputsOf : KTensor → List ℕ
  | KTensor.input tag => [tag]
  | KTensor.concat2 a b => inputsOf a ++ inputsOf b
  | KTensor.conv2d _ _ _ _ _ x => inputsOf x
  | KTensor.convTranspose2d _ _ _ _ x => inputsOf x
  | KTensor.batchNorm x => inputsOf x
  | KTensor.leakyRelu x => inputsOf x
  | KTensor.zeroPad x => inputsOf x

/-- A built keras model: declared inputs plus the output node. -/
structure KerasModel where
  inputs : List KTensor
  output : KTensor

/-- The `downsample` building block (both `Model0.buildingblocks.downsample`
and the module-level `downsample` of `pix2pix_updated.py`): a stride-2
convolution without bias, an optional normalization layer, then LeakyReLU. -/
def downsampleK (filters size : ℕ) (apply_norm : Bool) (x : KTensor) : KTensor :=
  let conv := KTensor.conv2d filters size 2 false 0 x
  KTensor.leakyRelu (if apply_norm then KTensor.batchNorm conv else conv)

end KGraph

namespace Model0Disc

/-!
Transcription of `Model0.discriminator` (`src/models/model0/model0.py`,
lines 188-214).  Note the source: `x = tf.keras.layers.concatenate([inp, tar])`
is computed but `down1` is applied to `inp`, and the model is built with
`inputs=inp` only.
-/

/-- The `input_image` placeholder (tag 0). -/
def inp : KGraph.KTensor := KGraph.KTensor.input 0

/-- The `target_image` placeholder (tag 1). -/
def tar : KGraph.KTensor := KGraph.KTensor.input 1

/-- Line 194: `x = tf.keras.layers.concatenate([inp, tar])`. -/
def xConcat : KGraph.KTensor := KGraph.KTensor.concat2 inp tar

/-- Line 196: `down1 = downsample(64, 4, apply_batchnorm=False)(inp)` —
applied to `inp`, not to the concatenation `x`. -/
def down1 : KGraph.KTensor := KGraph.downsampleK 64 4 false inp

/-- Line 197: `down2 = downsample(128, 4)(down1)`. -/
def down2 : KGraph.KTensor := KGraph.downsampleK 128 4 true down1

/-- Line 198: `down3 = downsample(256, 4)(down2)`. -/
def down3 : KGraph.KTensor := KGraph.downsampleK 256 4 true down2

/-- Line 200: `zero_pad1 = ZeroPadding2D()(down3)`. -/
def zero_pad1 : KGraph.KTensor := KGraph.KTensor.zeroPad down3

/-- Lines 201-203: stride-1 512-filter convolution without bias. -/
def conv : KGraph.KTensor := KGraph.KTensor.conv2d 512 4 1 false 0 zero_pad1

/-- Line 205: batch normalization. -/
def batchnorm1 : KGraph.KTensor := KGraph.KTensor.batchNorm conv

/-- Line 207: LeakyReLU. -/
def leaky_relu : KGraph.KTensor := KGraph.KTensor.leakyRelu batchnorm1

/-- Line 209: second zero padding. -/
def zero_pad2 : KGraph.KTensor := KGraph.KTensor.zeroPad leaky_relu

/-- Lines 211-212: the final single-channel stride-1 convolution (logits,
no activation). -/
def lastConv : KGraph.KTensor := KGraph.KTensor.conv2d 1 4 1 true 0 zero_pad2

/-- Line 214: `tf.keras.Model(inputs=inp, outputs=last)` — only `inp` is
declared as an input. -/
def model : KGraph.KerasModel := ⟨[inp], lastConv⟩

end Model0Disc

namespace P2PDisc

/-!
Transcription of the module-level `discriminator` builder of
`src/deprecated/models/pix2pix_updated.py`, lines 147-169.
-/

/-- The `input_image` placeholder (tag 0). -/
def inp : KGraph.KTensor := KGraph.KTensor.input 0

/-- The `target_image` placeholder (tag 1). -/
def target_image : KGraph.KTensor := KGraph.KTensor.input 1

/-- Line 155: `x = tf.keras.layers.concatenate([inp, target_image])`. -/
def xConcat : KGraph.KTensor := KGraph.KTensor.concat2 inp target_image

/-- One iteration of the layer loop (lines 158-165), carrying the current
tensor and the filter multiplier: layer 1 skips normalization and always
doubles the multiplier; every other layer normalizes and doubles the
multiplier while it is below 8. -/
def loopBody (initial_units : ℕ) (acc : KGraph.KTensor × ℕ) (layer : ℕ) :
    KGraph.KTensor × ℕ :=
  if layer = 1 then
    (KGraph.downsampleK (initial_units * acc.2) 4 false acc.1, acc.2 * 2)
  else
    (KGraph.downsampleK (initial_units * acc.2) 4 true acc.1,
      if acc.2 < 8 then acc.2 * 2 else acc.2)

/-- The output node: the downsampling loop applied to the concatenation,
then the final single-channel stride-1 convolution with sigmoid activation
(line 167). -/
def output (initial_units layers : ℕ) : KGraph.KTensor :=
  KGraph.KTensor.conv2d 1 4 1 true 1
    ((List.range layers).foldl (loopBody initial_units) (xConcat, 1)).1

/-- Line 169: `tf.keras.Model(inputs=[inp, target_image], outputs=last)`,
with the default arguments `initial_units=64`, `layers=4` used by
`Pix2Pix.__init__`. -/
def model : KGraph.KerasModel := ⟨[inp, target_image], output 64 4⟩

end P2PDisc

namespace Model0

/-!
Embedding of the training state and training step of `Model0`
(`src/models/model0/model0.py`).  Image and score-map tensors are flat lists
of reals.  The built generator and discriminator networks are functions of
their trainable variables (`genApply`, `discApply`); automatic
differentiation (`tf.GradientTape.gradient`) and the Adam updates
(`optimizer.apply_gradients`) are framework services and appear as abstract
function fields.  The `tf.keras.metrics.Mean` accumulators are modelled as
the lists of scalar values fed to them.
-/

/-- The mutable state of a `Model0` instance. -/
structure St where
  genVars : List ℝ
  discVars : List ℝ
  genApply : List ℝ → List ℝ → List ℝ
  discApply : List ℝ → List ℝ × List ℝ → List ℝ
  loss_object : List ℝ → List ℝ → ℝ
  LAMBDA : ℝ
  SECOND_PASS_LAMBDA : ℝ
  tapeGrad : (List ℝ → ℝ) → List ℝ → List ℝ
  genOptApply : List ℝ → List ℝ → List ℝ
  discOptApply : List ℝ → List ℝ → List ℝ
  train_loss_disc : List ℝ
  train_loss_gen : List ℝ

/-- Transcription of `Model0.__init__` (lines 25-68): sets the loss object to binary
cross-entropy from logits, `LAMBDA = 100`, `SECOND_PASS_LAMBDA = 1.25`, and
empty metric accumulators.  The built networks, the gradient service and the
optimizers are the remaining parameters. -/
noncomputable def init (genVars discVars : List ℝ)
    (genApply : List ℝ → List ℝ → List ℝ)
    (discApply : List ℝ → List ℝ × List ℝ → List ℝ)
    (tapeGrad : (List ℝ → ℝ) → List ℝ → List ℝ)
    (genOptApply discOptApply : List ℝ → List ℝ → List ℝ) : St :=
  ⟨genVars, discVars, genApply, discApply, ARQGAN.bceFromLogits, 100, 1.25,
    tapeGrad, genOptApply, discOptApply, [], []⟩

/-- Transcription of `Model0.discriminator_loss` (lines 217-224): sum of the cross-entropy of
the real scores against ones and of the generated scores against zeros.
Note the source returns the plain sum, without halving. -/
def discriminator_loss (m : St) (disc_real_output disc_generated_output : List ℝ) : ℝ :=
  m.loss_object (ARQGAN.onesLike disc_real_output) disc_real_output
    + m.loss_object (ARQGAN.zerosLike disc_generated_output) disc_generated_output

/-- Transcription of `Model0.generator_loss` (lines 226-234): adversarial cross-entropy plus
`LAMBDA` times the L1 reconstruction loss. -/
noncomputable def generator_loss (m : St) (disc_generated_output gen_output target : List ℝ) : ℝ :=
  m.loss_object (ARQGAN.onesLike disc_generated_output) disc_generated_output
    + m.LAMBDA * ARQGAN.l1Loss target gen_output

/-- Transcription of `Model0.train_step` (lines 237-273): the double-pass training step.  The
closures handed to `tapeGrad` express what each of the two tapes recorded:
the dependence of the total generator loss on the generator variables, and of
the total discriminator loss on the discriminator variables, both through the
single forward pass of this step.  The second pass feeds the first pass's
generator output back through the generator, and its discriminator loss
reuses `disc_real_output_first_pass` (source line 253 comment: the
second-cycle real output equals the first cycle's). -/
noncomputable def train_step (m : St) (input_image target : List ℝ) : St :=
  let gen_output_first_pass := m.genApply m.genVars input_image
  let disc_real_output_first_pass := m.discApply m.discVars (input_image, target)
  let disc_generated_output_first_pass :=
    m.discApply m.discVars (input_image, gen_output_first_pass)
  let gen_loss_first_pass :=
    generator_loss m disc_generated_output_first_pass gen_output_first_pass target
  let disc_loss_first_pass :=
    discriminator_loss m disc_real_output_first_pass disc_generated_output_first_pass
  let gen_output_second_pass := m.genApply m.genVars gen_output_first_pass
  let disc_generated_output_second_pass :=
    m.discApply m.discVars (input_image, gen_output_second_pass)
  let gen_loss_second_pass :=
    generator_loss m disc_generated_output_second_pass gen_output_second_pass target
  let disc_loss_second_pass :=
    discriminator_loss m disc_real_output_first_pass disc_generated_output_second_pass
  let gen_loss := gen_loss_first_pass + m.SECOND_PASS_LAMBDA * gen_loss_second_pass
  let disc_loss := disc_loss_first_pass + disc_loss_second_pass
  let genLossAt : List ℝ → ℝ := fun gv =>
    let g1 := m.genApply gv input_image
    let g2 := m.genApply gv g1
    generator_loss m (m.discApply m.discVars (input_image, g1)) g1 target
      + m.SECOND_PASS_LAMBDA
        * generator_loss m (m.discApply m.discVars (input_image, g2)) g2 target
  let discLossAt : List ℝ → ℝ := fun dv =>
    let g1 := m.genApply m.genVars input_image
    let g2 := m.genApply m.genVars g1
    discriminator_loss m (m.discApply dv (input_image, target))
        (m.discApply dv (input_image, g1))
      + discriminator_loss m (m.discApply dv (input_image, target))
        (m.discApply dv (input_image, g2))
  let generator_gradients := m.tapeGrad genLossAt m.genVars
  let discriminator_gradients := m.tapeGrad discLossAt m.discVars
  { m with
    genVars := m.genOptApply m.genVars generator_gradients,
    discVars := m.discOptApply m.discVars discriminator_gradients,
    train_loss_disc := m.train_loss_disc ++ [disc_loss],
    train_loss_gen := m.train_loss_gen ++ [gen_loss] }

end Model0

namespace Hybrid

/-!
Embedding of `HybridReconstuctor` (`src/models/hybrid_reconstuctor.py`).
The class inherits its loss functions, loss object and optimizers from
`models.pix2pix.Pix2Pix`, whose source is not part of the reviewed tree;
those dynamically dispatched methods therefore appear as function fields of
the state (a subclass such as `RaisingLamdba` installs its own overrides).
The `training=True/False` keyword passed to the networks is the boolean
argument of `genApply`/`discApply`.
-/

/-- The mutable state of a `HybridReconstuctor` instance. -/
structure St where
  genVars : List ℝ
  discVars : List ℝ
  genApply : Bool → List ℝ → List ℝ × List ℝ → List ℝ
  discApply : Bool → List ℝ → List ℝ × List ℝ → List ℝ
  generator_lossF : List ℝ → List ℝ → List ℝ → ℝ
  discriminator_lossF : List ℝ → List ℝ → ℝ
  tapeGrad : (List ℝ → ℝ) → List ℝ → List ℝ
  genOptApply : List ℝ → List ℝ → List ℝ
  discOptApply : List ℝ → List ℝ → List ℝ
  log_dir : Bool
  train_disc_loss : List ℝ
  train_gen_loss : List ℝ
  val_disc_loss : List ℝ
  val_gen_loss : List ℝ

/-- Transcription of `HybridReconstuctor.train_step` (lines 68-89): one persistent tape
records the single forward pass — generator on `[ruin, color]`, discriminator
on `[ruin, temple]` and `[ruin, gen_output]` — both losses are computed from
it, each network's gradients are taken with respect to its own trainable
variables, and each optimizer updates its own network.  Metric updates happen
only when a log directory is configured. -/
def train_step (h : St) (ruin temple color : List ℝ) : St :=
  let genLossAt : List ℝ → ℝ := fun gv =>
    let gen_output := h.genApply true gv (ruin, color)
    h.generator_lossF (h.discApply true h.discVars (ruin, gen_output)) gen_output temple
  let discLossAt : List ℝ → ℝ := fun dv =>
    let gen_output := h.genApply true h.genVars (ruin, color)
    h.discriminator_lossF (h.discApply true dv (ruin, temple))
      (h.discApply true dv (ruin, gen_output))
  let gen_loss := genLossAt h.genVars
  let disc_loss := discLossAt h.discVars
  let gen_gradients := h.tapeGrad genLossAt h.genVars
  let disc_gradients := h.tapeGrad discLossAt h.discVars
  { h with
    genVars := h.genOptApply h.genVars gen_gradients,
    discVars := h.discOptApply h.discVars disc_gradients,
    train_disc_loss :=
      if h.log_dir then h.train_disc_loss ++ [disc_loss] else h.train_disc_loss,
    train_gen_loss :=
      if h.log_dir then h.train_gen_loss ++ [gen_loss] else h.train_gen_loss }

/-- Transcription of `HybridReconstuctor.validate` (lines 128-142): takes the first batch of
the validation set, runs the generator and discriminator with
`training=False`, computes both losses with the same loss functions as the
training step, and updates only validation metrics — no tape, no gradients,
no optimizer call. -/
def validate (h : St) (test : List (List ℝ × List ℝ × List ℝ)) : St :=
  match test with
  | [] => h
  | b :: _ =>
    let test_ruin := b.1
    let test_temple := b.2.1
    let test_color := b.2.2
    let gen_output := h.genApply false h.genVars (test_ruin, test_color)
    let disc_real_output := h.discApply false h.discVars (test_ruin, test_temple)
    let disc_generated_output := h.discApply false h.discVars (test_ruin, gen_output)
    let gen_loss := h.generator_lossF disc_generated_output gen_output test_temple
    let disc_loss := h.discriminator_lossF disc_real_output disc_generated_output
    { h with
      val_disc_loss :=
        if h.log_dir then h.val_disc_loss ++ [disc_loss] else h.val_disc_loss,
      val_gen_loss :=
        if h.log_dir then h.val_gen_loss ++ [gen_loss] else h.val_gen_loss }

end Hybrid

namespace P2P

/-!
Embedding of the deprecated `Pix2Pix` class
(`src/deprecated/models/pix2pix_updated.py`).  The tensorboard summary writer
is modelled as the list of `(g_loss, l1_loss, d_loss)` scalar triples written
per step, guarded by whether a writer was handed to `_step`.
-/

/-- The mutable state of a deprecated `Pix2Pix` instance. -/
structure St where
  genVars : List ℝ
  discVars : List ℝ
  genApply : Bool → List ℝ → List ℝ → List ℝ
  discApply : Bool → List ℝ → List ℝ × List ℝ → List ℝ
  loss_object : List ℝ → List ℝ → ℝ
  tapeGrad : (List ℝ → ℝ) → List ℝ → List ℝ
  optimizer_g : List ℝ → List ℝ → List ℝ
  optimizer_d : List ℝ → List ℝ → List ℝ
  writer : Bool
  summaryLog : List (ℝ × ℝ × ℝ)

/-- Transcription of `Pix2Pix._loss_d` (lines 189-193): half the sum of the cross-entropy of
the real scores against ones and of the generated scores against zeros. -/
def loss_d (m : St) (d_y d_g_x : List ℝ) : ℝ :=
  0.5 * (m.loss_object (ARQGAN.onesLike d_y) d_y
    + m.loss_object (ARQGAN.zerosLike d_g_x) d_g_x)

/-- Transcription of `Pix2Pix._loss_g` (lines 195-205): adversarial cross-entropy plus
`multiplier` times the L1 loss; also returns the bare L1 loss. -/
noncomputable def loss_g (m : St) (d_g_x y g_x : List ℝ) (multiplier : ℝ) : ℝ × ℝ :=
  (m.loss_object (ARQGAN.onesLike d_g_x) d_g_x
    + multiplier * ARQGAN.l1Loss y g_x, ARQGAN.l1Loss y g_x)

/-- Transcription of `Pix2Pix._step` (lines 207-226): forward passes and losses are always
computed (with the `training` flag forwarded to the networks); the two
`_gradient_update` calls run only when `training` is true; the losses are
then written to the summary writer when one is present.  `multiplier=100` as
at the call site (line 215). -/
noncomputable def step (m : St) (train_x train_y : List ℝ) (training : Bool) : St :=
  let gLossAt : List ℝ → ℝ := fun gv =>
    let g_x := m.genApply training gv train_x
    (loss_g m (m.discApply training m.discVars (train_x, g_x)) train_y g_x 100).1
  let dLossAt : List ℝ → ℝ := fun dv =>
    let g_x := m.genApply training m.genVars train_x
    loss_d m (m.discApply training dv (train_x, train_y))
      (m.discApply training dv (train_x, g_x))
  let g_x := m.genApply training m.genVars train_x
  let d_g_x := m.discApply training m.discVars (train_x, g_x)
  let gPair := loss_g m d_g_x train_y g_x 100
  let d_loss := dLossAt m.discVars
  let m1 :=
    if training then
      { m with
        genVars := m.optimizer_g m.genVars (m.tapeGrad gLossAt m.genVars),
        discVars := m.optimizer_d m.discVars (m.tapeGrad dLossAt m.discVars) }
    else m
  { m1 with
    summaryLog :=
      if m.writer then m1.summaryLog ++ [(gPair.1, gPair.2, d_loss)]
      else m1.summaryLog }

end P2P

namespace RLam

/-!
Embedding of `RaisingLamdba` (`src/models/hybrid_risinglambda.py`).  Only the
scheduling fields and the overridden loss functions are modelled; the parent
state is as for `HybridReconstuctor`.
-/

/-- The scheduling state of a `RaisingLamdba` instance: initial and final
lambda, current epoch `e_t`, total epochs `e_f` (unset until `fit` runs), and
the inherited loss object. -/
structure St where
  lambda_i : ℝ
  lambda_f : ℝ
  e_t : ℝ
  e_f : Option ℝ
  loss_object : List ℝ → List ℝ → ℝ

/-- Transcription of `RaisingLamdba.__init__` (lines 6-15).  The `lamda_f` keyword argument is
accepted but the body assigns the literals `self.lambda_i = 100` and
`self.lambda_f = 200`; `e_t = 0`, `e_f = None`.  Modelled from the spec: the
parent `Pix2Pix.__init__` (`models/pix2pix.py`, not in the reviewed tree)
installs the binary cross-entropy loss object, per the spec's loss-function
section. -/
noncomputable def init (lamda_f : ℝ) : St :=
  ⟨100, 200, 0, none, ARQGAN.bceFromLogits⟩

/-- Transcription of `RaisingLamdba.generator_loss` (lines 17-24): adversarial cross-entropy
plus `lambda_t * l1`, where
`lambda_t = lambda_i + (lambda_f - lambda_i) / e_f * e_t`.  Before `fit` has
set `e_f` the Python expression raises (`e_f` is `None`); the embedding
returns `none` in that case. -/
noncomputable def generator_loss (st : St)
    (disc_generated_output gen_output target : List ℝ) : Option ℝ :=
  st.e_f.map fun ef =>
    st.loss_object (ARQGAN.onesLike disc_generated_output) disc_generated_output
      + (st.lambda_i + (st.lambda_f - st.lambda_i) / ef * st.e_t)
        * ARQGAN.l1Loss target gen_output

/-- The L1 weight `lambda_t` computed inside `generator_loss` (line 20). -/
noncomputable def lambdaT (st : St) : Option ℝ :=
  st.e_f.map fun ef => st.lambda_i + (st.lambda_f - st.lambda_i) / ef * st.e_t

/-- Transcription of `RaisingLamdba.discriminator_loss` (lines 26-31): the summed
cross-entropies, then `* 0.5`. -/
def discriminator_loss (st : St) (disc_real_output disc_generated_output : List ℝ) : ℝ :=
  (st.loss_object (ARQGAN.onesLike disc_real_output) disc_real_output
    + st.loss_object (ARQGAN.zerosLike disc_generated_output) disc_generated_output) * 0.5

/-- The scheduling assignments performed by `RaisingLamdba.fit`
(lines 33-36) before the steps of epoch `epoch` run: `e_f = epochs` once, and
`e_t = epoch + 1` per epoch. -/
noncomputable def fitState (st : St) (epochs epoch : ℕ) : St :=
  { st with e_f := some (epochs : ℝ), e_t := (epoch : ℝ) + 1 }

end RLam

namespace HybridData

/-!
Embedding of `HybridReconstuctor.get_dataset` (lines 11-41).  The per-temple
datasets produced by `get_single_dataset` are parameters (their contents come
from the filesystem).  A `tf.data` pipeline is re-executed every time it is
iterated, and `Dataset.shuffle` with the default
`reshuffle_each_iteration=True` draws a fresh permutation on every execution;
the `shuffle1` parameter of `trainIter`/`valIter` is the permutation drawn by
the buffer-sized shuffle for that particular iteration of that particular
pipeline (the train and validation pipelines iterate independently), and
`shuffle2` is the `.shuffle(1000, reshuffle_each_iteration=False)` order.
A legal instantiation of either is any permutation of its input.
-/

/-- Line 18: `buffer_size = len(temples) * ruins_per_temple * 300`. -/
def buffer_size (numTemples ruins_per_temple : ℕ) : ℕ :=
  numTemples * ruins_per_temple * 300

/-- Lines 28-31: the first per-temple dataset concatenated with the rest. -/
def assembled {α : Type} (datasets : List (List α)) : List α :=
  datasets.foldl (fun acc d => acc ++ d) []

/-- Line 36: `train_size = buffer_size - round(buffer_size * split)`. -/
def train_size (bs : ℕ) (split : ℚ) : ℤ :=
  (bs : ℤ) - ARQGAN.pyRound ((bs : ℚ) * split)

/-- Embedding of `batch(1)`: each element becomes a singleton batch. -/
def batch1 {α : Type} (l : List α) : List (List α) :=
  l.map fun x => [x]

/-- One iteration of the `train` pipeline (line 37): shuffle of the assembled
dataset, `take(train_size)`, the second shuffle, `batch(1)`. -/
def trainIter {α : Type} (datasets : List (List α)) (ruins_per_temple : ℕ)
    (split : ℚ) (shuffle1 shuffle2 : List α → List α) : List (List α) :=
  batch1 (shuffle2 ((shuffle1 (assembled datasets)).take
    (train_size (buffer_size datasets.length ruins_per_temple) split).toNat))

/-- One iteration of the `validation` pipeline (lines 38-39): shuffle of the
assembled dataset, `skip(train_size)`, the second shuffle, `batch(1)`. -/
def valIter {α : Type} (datasets : List (List α)) (ruins_per_temple : ℕ)
    (split : ℚ) (shuffle1 shuffle2 : List α → List α) : List (List α) :=
  batch1 (shuffle2 ((shuffle1 (assembled datasets)).drop
    (train_size (buffer_size datasets.length ruins_per_temple) split).toNat))

end HybridData

section Claims

open ARQGAN

/-- Claim C1.  The claim states that the discriminator applies its encoder
stack to the channel-wise concatenation of condition and candidate, so that
the built discriminator's output depends on both inputs.  This evaluation of
the built graphs shows the opposite for `Model0.discriminator`: its output
node reads only the condition placeholder (tag 0) — the concatenation node
`x` is built (it reads both placeholders) but is dead, `down1` is wired from
`inp`, and the keras model declares `inp` as its only input — whereas the
deprecated `pix2pix_updated.discriminator` output reads both placeholders and
declares both inputs, as the claim describes. -/
theorem model0_discriminator_ignores_candidate :
    KGraph.inputsOf Model0Disc.model.output = [0]
  ∧ Model0Disc.model.inputs = [KGraph.KTensor.input 0]
  ∧ KGraph.inputsOf Model0Disc.xConcat = [0, 1]
  ∧ KGraph.inputsOf P2PDisc.model.output = [0, 1]
  ∧ P2PDisc.model.inputs = [KGraph.KTensor.input 0, KGraph.KTensor.input 1] := by
  refine ⟨by decide, rfl, by decide, by decide, rfl⟩

/-- Claim C2.  In `Model0.train_step`, the recorded total generator loss is
the first-pass generator loss plus `SECOND_PASS_LAMBDA` times the second-pass
generator loss, the second pass runs the generator on the first pass's output
(`genApply genVars (genApply genVars input)`), and the second-pass
discriminator loss takes the first pass's real-discriminator output
(`discApply discVars (input, target)`) as its real score. -/
theorem model0_double_pass_losses (m : Model0.St) (input_image target : List ℝ) :
    (Model0.train_step m input_image target).train_loss_gen
      = m.train_loss_gen
        ++ [Model0.generator_loss m
              (m.discApply m.discVars (input_image, m.genApply m.genVars input_image))
              (m.genApply m.genVars input_image) target
            + m.SECOND_PASS_LAMBDA
              * Model0.generator_loss m
                  (m.discApply m.discVars
                    (input_image, m.genApply m.genVars (m.genApply m.genVars input_image)))
                  (m.genApply m.genVars (m.genApply m.genVars input_image)) target]
  ∧ (Model0.train_step m input_image target).train_loss_disc
      = m.train_loss_disc
        ++ [Model0.discriminator_loss m (m.discApply m.discVars (input_image, target))
              (m.discApply m.discVars (input_image, m.genApply m.genVars input_image))
            + Model0.discriminator_loss m (m.discApply m.discVars (input_image, target))
              (m.discApply m.discVars
                (input_image, m.genApply m.genVars (m.genApply m.genVars input_image)))] :=
  ⟨rfl, rfl⟩

/-- Claim C3.  The claim states the shuffled train/validation splits are
disjoint across re-iterations.  Concrete evaluation of `get_dataset`'s
pipeline: with one temple, `ruins_per_temple=1`, a 300-example dataset and
`split=0.2` (so `train_size = 240`), an iteration of the train pipeline whose
buffer shuffle draws the identity permutation yields a train split containing
example 0, and an iteration of the validation pipeline whose (independent,
re-drawn) buffer shuffle yields the reversed order — a legal permutation —
puts example 0 in the validation split as well: the splits overlap. -/
theorem get_dataset_splits_overlap :
    HybridData.train_size (HybridData.buffer_size 1 1) (1/5) = 240
  ∧ (HybridData.assembled [List.range 300]).reverse.Perm
      (HybridData.assembled [List.range 300])
  ∧ [0] ∈ HybridData.trainIter [List.range 300] 1 (1/5) id id
  ∧ [0] ∈ HybridData.valIter [List.range 300] 1 (1/5) List.reverse id := by
  have hts : HybridData.train_size (HybridData.buffer_size 1 1) (1/5) = 240 := by
    norm_num [HybridData.train_size, HybridData.buffer_size, ARQGAN.pyRound]
  refine ⟨hts, List.reverse_perm _, ?_, ?_⟩
  · simp only [HybridData.trainIter, List.length_singleton]
    rw [hts]
    decide
  · simp only [HybridData.valIter, List.length_singleton]
    rw [hts]
    decide

/-- Claim C4.  In the rising-lambda variant, during epoch `t` of `E`
(`fit` sets `e_f = E` once and `e_t = t` before the epoch's steps), the
generator loss uses the L1 weight
`lambda_i + (lambda_f - lambda_i) * t / E`; that weight is strictly
increasing in the epoch when `lambda_i < lambda_f`, and equals `lambda_f` at
the final epoch. -/
theorem rising_lambda_schedule (st : RLam.St) (E t t1 t2 : ℕ)
    (dgo go tgt : List ℝ)
    (ht1 : 1 ≤ t) (ht2 : t ≤ E) (hlam : st.lambda_i < st.lambda_f)
    (h1 : 1 ≤ t1) (h12 : t1 < t2) (h2E : t2 ≤ E) :
    RLam.generator_loss (RLam.fitState st E (t - 1)) dgo go tgt
      = some (st.loss_object (ARQGAN.onesLike dgo) dgo
          + (st.lambda_i + (st.lambda_f - st.lambda_i) * (t : ℝ) / (E : ℝ))
            * ARQGAN.l1Loss tgt go)
  ∧ st.lambda_i + (st.lambda_f - st.lambda_i) * (t1 : ℝ) / (E : ℝ)
      < st.lambda_i + (st.lambda_f - st.lambda_i) * (t2 : ℝ) / (E : ℝ)
  ∧ st.lambda_i + (st.lambda_f - st.lambda_i) * (E : ℝ) / (E : ℝ) = st.lambda_f := by
  have hE : 1 ≤ E := le_trans ht1 ht2
  have hE0 : (0 : ℝ) < (E : ℝ) := by exact_mod_cast Nat.lt_of_lt_of_le Nat.zero_lt_one hE
  have hEne : (E : ℝ) ≠ 0 := ne_of_gt hE0
  refine ⟨?_, ?_, ?_⟩
  · have hcast : ((t - 1 : ℕ) : ℝ) + 1 = (t : ℝ) := by
      rw [Nat.cast_sub ht1]
      ring
    rw [show RLam.generator_loss (RLam.fitState st E (t - 1)) dgo go tgt
        = some (st.loss_object (ARQGAN.onesLike dgo) dgo
            + (st.lambda_i
                + (st.lambda_f - st.lambda_i) / (E : ℝ) * (((t - 1 : ℕ) : ℝ) + 1))
              * ARQGAN.l1Loss tgt go) from rfl]
    rw [hcast]
    congr 1
    ring
  · have hc : 0 < st.lambda_f - st.lambda_i := sub_pos.mpr hlam
    have ht : (t1 : ℝ) < (t2 : ℝ) := by exact_mod_cast h12
    exact add_lt_add_left
      ((div_lt_div_iff_of_pos_right hE0).mpr ((mul_lt_mul_left hc).mpr ht)) _
  · field_simp

/-- Witness for claim C4 at a concrete instance: the freshly constructed
`RaisingLamdba` state (whose bounds are 100 and 200), two epochs, epoch 1. -/
theorem rising_lambda_schedule_witness :
    ((1 : ℕ) ≤ 1 ∧ (1 : ℕ) ≤ 2
      ∧ (RLam.init 300).lambda_i < (RLam.init 300).lambda_f
      ∧ (1 : ℕ) ≤ 1 ∧ (1 : ℕ) < 2 ∧ (2 : ℕ) ≤ 2)
  ∧ (RLam.generator_loss (RLam.fitState (RLam.init 300) 2 (1 - 1)) [] [] []
      = some ((RLam.init 300).loss_object (ARQGAN.onesLike []) []
          + ((RLam.init 300).lambda_i
              + ((RLam.init 300).lambda_f - (RLam.init 300).lambda_i)
                * ((1 : ℕ) : ℝ) / ((2 : ℕ) : ℝ))
            * ARQGAN.l1Loss [] [])
    ∧ (RLam.init 300).lambda_i
        + ((RLam.init 300).lambda_f - (RLam.init 300).lambda_i)
          * ((1 : ℕ) : ℝ) / ((2 : ℕ) : ℝ)
      < (RLam.init 300).lambda_i
        + ((RLam.init 300).lambda_f - (RLam.init 300).lambda_i)
          * ((2 : ℕ) : ℝ) / ((2 : ℕ) : ℝ)
    ∧ (RLam.init 300).lambda_i
        + ((RLam.init 300).lambda_f - (RLam.init 300).lambda_i)
          * ((2 : ℕ) : ℝ) / ((2 : ℕ) : ℝ)
      = (RLam.init 300).lambda_f) :=
  ⟨⟨le_refl 1, by norm_num, by norm_num [RLam.init], le_refl 1, by norm_num, le_refl 2⟩,
   rising_lambda_schedule (RLam.init 300) 2 1 1 2 [] [] []
     (le_refl 1) (by norm_num) (by norm_num [RLam.init]) (le_refl 1) (by norm_num)
     (le_refl 2)⟩

/-- Claim C5, counterexample.  `Model0.discriminator_loss` (with the loss
object installed by `Model0.__init__`) evaluated at the score maps
`real = [0]`, `generated = [0]` yields `log 2 + log 2`, which is not the
halved sum `(log 2 + log 2) / 2` the claim requires: `Model0` does not halve
its discriminator loss. -/
theorem model0_disc_loss_unhalved :
    Model0.discriminator_loss
        (Model0.init [] [] (fun _ x => x) (fun _ p => p.1) (fun _ v => v)
          (fun v _ => v) (fun v _ => v)) [0] [0]
      ≠ (ARQGAN.bceFromLogits (ARQGAN.onesLike [0]) [0]
          + ARQGAN.bceFromLogits (ARQGAN.zerosLike [0]) [0]) / 2 := by
  simp only [Model0.discriminator_loss, Model0.init, ARQGAN.bceFromLogits,
    ARQGAN.onesLike, ARQGAN.zerosLike, List.map_cons, List.map_nil,
    List.zip_cons_cons, List.zip_nil_right, List.sum_cons, List.sum_nil,
    List.length_cons, List.length_nil]
  norm_num [Real.exp_zero]

/-- Claim C5, amended.  The discriminator loss is the halved sum of the two
cross-entropies in the deprecated `Pix2Pix._loss_d` and in
`RaisingLamdba.discriminator_loss`; `Model0.discriminator_loss` returns the
plain (unhalved) sum. -/
theorem discriminator_loss_halving_by_variant (mp : P2P.St) (mr : RLam.St)
    (m0 : Model0.St) (r g : List ℝ) :
    P2P.loss_d mp r g
      = (mp.loss_object (ARQGAN.onesLike r) r
          + mp.loss_object (ARQGAN.zerosLike g) g) / 2
  ∧ RLam.discriminator_loss mr r g
      = (mr.loss_object (ARQGAN.onesLike r) r
          + mr.loss_object (ARQGAN.zerosLike g) g) / 2
  ∧ Model0.discriminator_loss m0 r g
      = m0.loss_object (ARQGAN.onesLike r) r
        + m0.loss_object (ARQGAN.zerosLike g) g := by
  refine ⟨?_, ?_, rfl⟩
  · show 0.5 * _ = _ / 2
    ring
  · show _ * 0.5 = _ / 2
    ring

/-- Claim C6.  In both `HybridReconstuctor.train_step` and
`Model0.train_step`, the new generator variables are produced exclusively by
the generator optimizer from the gradient of the generator loss taken at the
current generator variables, and the new discriminator variables exclusively
by the discriminator optimizer from the gradient of the discriminator loss
taken at the current discriminator variables; both differentiated losses are
the ones recorded by the step's single forward pass (the explicit closures,
which share the generator output and discriminator outputs of that pass), so
no trainable variable is touched by both optimizers. -/
theorem train_step_gradient_isolation (h : Hybrid.St) (ruin temple color : List ℝ)
    (m : Model0.St) (input_image target : List ℝ) :
    (Hybrid.train_step h ruin temple color).genVars
      = h.genOptApply h.genVars (h.tapeGrad (fun gv =>
          h.generator_lossF
            (h.discApply true h.discVars (ruin, h.genApply true gv (ruin, color)))
            (h.genApply true gv (ruin, color)) temple) h.genVars)
  ∧ (Hybrid.train_step h ruin temple color).discVars
      = h.discOptApply h.discVars (h.tapeGrad (fun dv =>
          h.discriminator_lossF (h.discApply true dv (ruin, temple))
            (h.discApply true dv (ruin, h.genApply true h.genVars (ruin, color))))
          h.discVars)
  ∧ (Model0.train_step m input_image target).genVars
      = m.genOptApply m.genVars (m.tapeGrad (fun gv =>
          Model0.generator_loss m
              (m.discApply m.discVars (input_image, m.genApply gv input_image))
              (m.genApply gv input_image) target
            + m.SECOND_PASS_LAMBDA
              * Model0.generator_loss m
                  (m.discApply m.discVars
                    (input_image, m.genApply gv (m.genApply gv input_image)))
                  (m.genApply gv (m.genApply gv input_image)) target) m.genVars)
  ∧ (Model0.train_step m input_image target).discVars
      = m.discOptApply m.discVars (m.tapeGrad (fun dv =>
          Model0.discriminator_loss m (m.discApply dv (input_image, target))
              (m.discApply dv (input_image, m.genApply m.genVars input_image))
            + Model0.discriminator_loss m (m.discApply dv (input_image, target))
              (m.discApply dv
                (input_image, m.genApply m.genVars (m.genApply m.genVars input_image))))
          m.discVars) :=
  ⟨rfl, rfl, rfl, rfl⟩

/-- Claim C7.  `HybridReconstuctor.validate` and the deprecated
`Pix2Pix._step` with `training=False` leave every trainable variable of the
generator and of the discriminator unchanged, while the no-gradient `_step`
still computes (and logs, when a writer is present) the same loss functions
`_loss_g`/`_loss_d` applied to the step's forward outputs. -/
theorem validation_leaves_parameters_unchanged (h : Hybrid.St)
    (test : List (List ℝ × List ℝ × List ℝ)) (m : P2P.St) (x y : List ℝ) :
    (Hybrid.validate h test).genVars = h.genVars
  ∧ (Hybrid.validate h test).discVars = h.discVars
  ∧ (P2P.step m x y false).genVars = m.genVars
  ∧ (P2P.step m x y false).discVars = m.discVars
  ∧ (P2P.step m x y false).summaryLog
      = (if m.writer then
          m.summaryLog
            ++ [((P2P.loss_g m
                  (m.discApply false m.discVars (x, m.genApply false m.genVars x)) y
                  (m.genApply false m.genVars x) 100).1,
                (P2P.loss_g m
                  (m.discApply false m.discVars (x, m.genApply false m.genVars x)) y
                  (m.genApply false m.genVars x) 100).2,
                P2P.loss_d m (m.discApply false m.discVars (x, y))
                  (m.discApply false m.discVars (x, m.genApply false m.genVars x)))]
        else m.summaryLog) := by
  cases test with
  | nil => exact ⟨rfl, rfl, rfl, rfl, rfl⟩
  | cons b rest => exact ⟨rfl, rfl, rfl, rfl, rfl⟩

/-- Claim C8.  For a pixel value in [0, 255], `normalize` yields
`v / 127.5 - 1`, which lies in [-1, 1]; the visualization inverse transform
`* 0.5 + 0.5` then yields `v / 255`, which lies in [0, 1]. -/
theorem normalize_round_trip (img : CustomPre.Img ℚ) (y x : ℕ)
    (h0 : 0 ≤ img.px y x) (h255 : img.px y x ≤ 255) :
    (CustomPre.normalizeImage img).px y x = img.px y x / 127.5 - 1
  ∧ -1 ≤ (CustomPre.normalizeImage img).px y x
  ∧ (CustomPre.normalizeImage img).px y x ≤ 1
  ∧ (CustomPre.vizImage (CustomPre.normalizeImage img)).px y x = img.px y x / 255
  ∧ 0 ≤ (CustomPre.vizImage (CustomPre.normalizeImage img)).px y x
  ∧ (CustomPre.vizImage (CustomPre.normalizeImage img)).px y x ≤ 1 := by
  have hpos : (0 : ℚ) < 127.5 := by norm_num
  have hdiv : 0 ≤ img.px y x / 127.5 := div_nonneg h0 (le_of_lt hpos)
  have hup : img.px y x / 127.5 ≤ 2 := by
    rw [div_le_iff hpos]
    linarith
  have hviz : (CustomPre.vizImage (CustomPre.normalizeImage img)).px y x
      = img.px y x / 255 := by
    show (img.px y x / 127.5 - 1) * 0.5 + 0.5 = img.px y x / 255
    ring
  refine ⟨rfl, ?_, ?_, hviz, ?_, ?_⟩
  · show -1 ≤ img.px y x / 127.5 - 1
    linarith
  · show img.px y x / 127.5 - 1 ≤ 1
    linarith
  · rw [hviz]
    exact div_nonneg h0 (by norm_num)
  · rw [hviz]
    rw [div_le_one (by norm_num)]
    exact h255

/-- Witness for claim C8 at the pixel value 51 (a 1x1 image). -/
theorem normalize_round_trip_witness :
    (0 ≤ (CustomPre.Img.mk 1 1 fun _ _ => (51 : ℚ)).px 0 0
      ∧ (CustomPre.Img.mk 1 1 fun _ _ => (51 : ℚ)).px 0 0 ≤ 255)
  ∧ ((CustomPre.normalizeImage (CustomPre.Img.mk 1 1 fun _ _ => (51 : ℚ))).px 0 0
      = (CustomPre.Img.mk 1 1 fun _ _ => (51 : ℚ)).px 0 0 / 127.5 - 1
    ∧ -1 ≤ (CustomPre.normalizeImage (CustomPre.Img.mk 1 1 fun _ _ => (51 : ℚ))).px 0 0
    ∧ (CustomPre.normalizeImage (CustomPre.Img.mk 1 1 fun _ _ => (51 : ℚ))).px 0 0 ≤ 1
    ∧ (CustomPre.vizImage (CustomPre.normalizeImage
        (CustomPre.Img.mk 1 1 fun _ _ => (51 : ℚ)))).px 0 0
      = (CustomPre.Img.mk 1 1 fun _ _ => (51 : ℚ)).px 0 0 / 255
    ∧ 0 ≤ (CustomPre.vizImage (CustomPre.normalizeImage
        (CustomPre.Img.mk 1 1 fun _ _ => (51 : ℚ)))).px 0 0
    ∧ (CustomPre.vizImage (CustomPre.normalizeImage
        (CustomPre.Img.mk 1 1 fun _ _ => (51 : ℚ)))).px 0 0 ≤ 1) :=
  ⟨⟨by decide, by decide⟩,
   normalize_round_trip (CustomPre.Img.mk 1 1 fun _ _ => (51 : ℚ)) 0 0
     (by decide) (by decide)⟩

/-- Claim C9.  The `lamda_f` keyword argument of `RaisingLamdba.__init__` has
no effect: every constructed state is the same, with `lambda_f = 200` and
`lambda_i = 100`. -/
theorem raising_lambda_init_ignores_lamda_f (a b : ℝ) :
    RLam.init a = RLam.init b
  ∧ (RLam.init a).lambda_f = 200
  ∧ (RLam.init a).lambda_i = 100 :=
  ⟨rfl, rfl, rfl⟩

/-- Helper for claim C10: unstacking the image-wise transform of a stacked
list is the same as mapping the transform over the list. -/
theorem range_map_getD {P : Type} (f : CustomPre.Img P → CustomPre.Img P)
    (dflt : CustomPre.Img P) (l : List (CustomPre.Img P)) :
    (List.range l.length).map (fun i => f (l.getD i dflt)) = l.map f := by
  induction l with
  | nil => rfl
  | cons a t ih =>
    rw [List.length_cons, List.range_succ_eq_map]
    simp only [List.map_cons, List.getD_cons_zero, List.map_map, Function.comp_def,
      List.getD_cons_succ]
    rw [ih]

/-- Helper for claim C10: cropping the stacked list at the single shared
offset and unstacking equals mapping the single-image crop over the list. -/
theorem unstack_cropStack {P : Type} (oy ox th tw : ℕ) (dflt : CustomPre.Img P)
    (l : List (CustomPre.Img P)) :
    CustomPre.unstack l.length
        (CustomPre.cropStack (CustomPre.stackImgs l dflt) 0 oy ox th tw)
      = l.map (CustomPre.cropOne oy ox th tw) := by
  unfold CustomPre.unstack CustomPre.cropStack CustomPre.stackImgs
  simp only [Nat.zero_add]
  exact range_map_getD (CustomPre.cropOne oy ox th tw) dflt l

/-- Helper for claim C10: `random_crop` is the map of one crop (at the
stack's shared random offset) over the image list. -/
theorem random_crop_map {P : Type} (g : CustomPre.Globals) (oy ox : ℕ)
    (dflt : CustomPre.Img P) (l : List (CustomPre.Img P)) :
    CustomPre.random_crop g oy ox dflt l
      = l.map (CustomPre.cropOne oy ox g.TGT_HEIGHT g.TGT_WIDTH) :=
  unstack_cropStack oy ox g.TGT_HEIGHT g.TGT_WIDTH dflt l

/-- Claim C10.  `random_jitter` applies one and the same spatial
transformation to every image of its tuple: the resize to the dimensions
computed once from the globals, the crop at the single random offset drawn
for the stacked tensor, and the single flip decision — i.e. it equals the map
of that per-image transformation over the tuple. -/
theorem random_jitter_uniform {P : Type} (g : CustomPre.Globals) (coin : Bool)
    (oy ox : ℕ) (dflt : CustomPre.Img P) (images : List (CustomPre.Img P)) :
    CustomPre.random_jitter g coin oy ox dflt images
      = images.map (CustomPre.jitterOne g coin oy ox) := by
  unfold CustomPre.random_jitter
  dsimp only
  rw [random_crop_map]
  unfold CustomPre.resize
  rw [List.map_map]
  cases coin with
  | false => simp [CustomPre.jitterOne, List.map_map, Function.comp_def]
  | true => simp [CustomPre.jitterOne, List.map_map, Function.comp_def]

end Claims
